import Mathlib

/-!
Verification of the Mood-Spoiler repository core logic.

Shallow embedding of:
  - src/src/utils/api.ts           (getAIBotReply, ChatInterface.handleSendMessage)
  - src/src/components/WebcamFeed.tsx (initializeDetection cascade, emotionMapping,
                                       detectEmotionsFaceAPI argmax + mapping,
                                       detectEmotionsTensorFlow, detectEmotionsSimulation)

Modelling conventions: JavaScript doubles are modelled as exact rationals;
Math.random() is modelled as an explicit rational parameter in [0, 1);
promise resolution/rejection is modelled with Except (error = rejected);
message ids and timestamps (crypto.randomUUID, Date) are external
nondeterminism irrelevant to every claim and are omitted from the
Message structure.
-/

deriving instance DecidableEq for Except

namespace MoodSpoiler

/-! ## String machinery: the reply sanitizer

Embeds `reply.replace(/<think>[\s\S]*?<\/think>/gi, "").trim()` from
src/src/utils/api.ts line 110.  The JS regex engine finds, left to right,
each shortest span starting at a case-insensitive occurrence of
`<think>` and ending at the first following case-insensitive `</think>`,
deletes it, and resumes scanning immediately after the deleted span.
-/

/-- Case-insensitive character comparison (the regex `i` flag). -/
def lowerEq (a b : Char) : Bool := a.toLower == b.toLower

/-- Does `pat` match case-insensitively at the head of `s`? -/
def matchesAt : List Char → List Char → Bool
  | [], _ => true
  | _ :: _, [] => false
  | p :: ps, c :: cs => lowerEq p c && matchesAt ps cs

/-- Index of the first case-insensitive occurrence of `pat` in `s`. -/
def findCI (pat : List Char) : List Char → Option Nat
  | [] => if matchesAt pat [] then some 0 else none
  | c :: cs =>
      if matchesAt pat (c :: cs) then some 0
      else (findCI pat cs).map (fun n => n + 1)

/-- The opening reasoning delimiter of the regex. -/
def thinkOpenL : List Char := "<think>".toList

/-- The closing reasoning delimiter of the regex. -/
def thinkCloseL : List Char := "</think>".toList

/-- One global regex pass of `replace(/<think>[\s\S]*?<\/think>/gi, "")`:
repeatedly delete the span from the leftmost `<think>` to the nearest
following `</think>` and resume after it.  `fuel` bounds the recursion;
`s.length` is always sufficient because each step consumes at least the
two delimiters. -/
def stripAux : Nat → List Char → List Char
  | 0, s => s
  | Nat.succ fuel, s =>
      match findCI thinkOpenL s with
      | none => s
      | some i =>
          let pre := s.take i
          let rest := s.drop (i + thinkOpenL.length)
          match findCI thinkCloseL rest with
          | none => s
          | some j => pre ++ stripAux fuel (rest.drop (j + thinkCloseL.length))

/-- All-occurrence think-tag removal on character lists. -/
def stripThinkL (s : List Char) : List Char := stripAux s.length s

/-- JS `String.prototype.trim` on character lists (whitespace at both
ends; the model uses the ASCII whitespace characters that can occur in
chat replies). -/
def trimL (s : List Char) : List Char :=
  ((s.dropWhile Char.isWhitespace).reverse.dropWhile Char.isWhitespace).reverse

/-- JS `s.trim()` on strings. -/
def trimS (s : String) : String := String.mk (trimL s.toList)

/-- The whole sanitizer of src/src/utils/api.ts line 110:
`reply.replace(/<think>[\s\S]*?<\/think>/gi, "").trim()`. -/
def sanitizeReply (s : String) : String := String.mk (trimL (stripThinkL s.toList))

/-! ## Conversation data model (ChatInterface.tsx) -/

/-- The `sender` field of a ChatInterface `Message`. -/
inductive Sender
  | user
  | bot
deriving DecidableEq, Repr

/-- A ChatInterface `Message` (id and timestamp omitted, see header). -/
structure Message where
  text : String
  sender : Sender
  emotion : Option String
deriving DecidableEq, Repr

/-- The role/content pair produced by `getHistoryForAPI` and consumed by
`getAIBotReply` (role is the string "user" or "bot"). -/
structure HistMsg where
  role : String
  content : String
deriving DecidableEq, Repr

/-- A chat-completion API message (role "system" / "user" / "assistant"). -/
structure ApiMsg where
  role : String
  content : String
deriving DecidableEq, Repr

/-- The ChatInterface state touched by handleSendMessage: the ordered
message list and the `isTyping` (composing) flag. -/
structure ChatState where
  messages : List Message
  isTyping : Bool
deriving DecidableEq, Repr

/-- The `sender` field serialized by `getHistoryForAPI` (`role: m.sender`). -/
def senderRole : Sender → String
  | .user => "user"
  | .bot => "bot"

/-- ChatInterface.tsx `getHistoryForAPI`: maps each message to
`{ role: m.sender, content: m.text }`. -/
def getHistoryForAPI (msgs : List Message) : List HistMsg :=
  msgs.map (fun m => ⟨senderRole m.sender, m.text⟩)

/-- The seeded greeting message of the initial ChatInterface state. -/
def greetingText : String :=
  "Hi there! I\x27m your Mood Spoiler bot. I\x27ll detect your emotions and give you the OPPOSITE vibes! 😈"

/-- The seeded greeting as a Message. -/
def greetMsg : Message := ⟨greetingText, .bot, none⟩

/-- The initial ChatInterface state: one seeded bot greeting, not typing. -/
def chatInit : ChatState := ⟨[greetMsg], false⟩

/-! ## getAIBotReply (src/src/utils/api.ts lines 59-116) -/

/-- The system prompt template of getAIBotReply, parameterized only by
the detected emotion, with the trailing `.trim()` of the template
literal applied (lines 63-73 of api.ts). -/
def systemPrompt (detectedEmotion : String) : String :=
  trimS ("\nYou are \"Mood Spoiler Bot\", a sarcastic and witty chatbot who always replies with the opposite mood of the user\x27s current emotion.\n\n1. Carefully analyze the user\x27s spoken message and the detected facial emotion.\n2. If the user\x27s words and detected emotion do not match (e.g., user says they\x27re happy but looks sad), cleverly and humorously point out or tease this discrepancy.\n3. Always reply with the opposite mood of the user\x27s detected emotion.\n4. Your replies should be playful, sarcastic, and entertaining.\n5. Do NOT repeat the user\x27s message or emotion. Respond only as the chatbot.\n\nThe detected facial emotion for the latest user message is: \"" ++ detectedEmotion ++ "\"\n")

/-- The `messages` array built inside getAIBotReply (lines 76-82): the
system prompt first, then the history with role `bot` translated to
`assistant` and everything else to `user`. -/
def requestMessages (messagesHistory : List HistMsg) (detectedEmotion : String) : List ApiMsg :=
  ⟨"system", systemPrompt detectedEmotion⟩ ::
    messagesHistory.map (fun m =>
      ⟨if m.role = "bot" then "assistant" else "user", m.content⟩)

/-- The payload handleSendMessage sends (api.ts lines 210-215): the
history captured before the optimistic append, plus the just-submitted
user message, fed through requestMessages. -/
def sendPayload (msgs : List Message) (inputText detectedEmotion : String) : List ApiMsg :=
  requestMessages (getHistoryForAPI msgs ++ [⟨"user", inputText⟩]) detectedEmotion

/-- Non-2xx fallback string (api.ts line 100). -/
def apologyText : String := "Sorry, the mood AI is having trouble right now."

/-- Missing-content / thrown-error fallback string (api.ts lines 107, 114). -/
def cantGetText : String := "Couldn\x27t get bot response!"

/-- The fallback text of handleSendMessage\x27s catch branch (ChatInterface). -/
def oopsText : String := "Oops! The mood spoiling AI is having a bad day. Try again later."

/-- Observable behaviour of one fetch of the remote reply engine.
`fetchResult`: `Except.error` models the fetch promise rejecting
(network error).  Inside a response: `ok` is `response.ok`;
`textResult` models `await response.text()`; `jsonContent` models
`await response.json()` followed by the optional-chain extraction
`data.choices?.[0]?.message?.content` (`Except.error` = json throws,
`none` = the chain is absent/undefined, `some r` = a string content). -/
structure HttpResponse where
  ok : Bool
  textResult : Except String String
  jsonContent : Except String (Option String)

/-- One fetch outcome (see HttpResponse). -/
structure FetchBehavior where
  fetchResult : Except String HttpResponse

/-- The try-block of getAIBotReply (api.ts lines 84-111).  A thrown JS
error at any await propagates as `Except.error`. -/
def getAIBotReplyTry (fb : FetchBehavior) : Except String String := do
  let response ← fb.fetchResult
  if response.ok = false then
    let _errorText ← response.textResult
    pure apologyText
  else
    let content ← response.jsonContent
    match content with
    | none => pure cantGetText
    | some reply =>
        if reply = "" then pure cantGetText
        else pure (sanitizeReply reply)

/-- getAIBotReply (api.ts lines 59-116): builds the payload, runs the
try-block, and converts any thrown error into the fixed fallback string
via the catch (lines 112-115).  `Except.ok` = the returned promise
resolves; `Except.error` would be a rejection. -/
def getAIBotReply (fb : FetchBehavior) (messagesHistory : List HistMsg)
    (detectedEmotion : String) : Except String String :=
  let _messages := requestMessages messagesHistory detectedEmotion
  match getAIBotReplyTry fb with
  | .ok s => Except.ok s
  | .error _ => Except.ok cantGetText

/-- True exactly when the reply request fails in the sense of the spec:
network error, non-2xx status, malformed json, or absent/empty content. -/
def isReplyFailure (fb : FetchBehavior) : Bool :=
  match fb.fetchResult with
  | .error _ => true
  | .ok resp =>
      if resp.ok = false then true
      else
        match resp.jsonContent with
        | .error _ => true
        | .ok none => true
        | .ok (some r) => r == ""

/-! ## handleSendMessage (ChatInterface.tsx, api.ts lines 195-237) -/

/-- handleSendMessage modelled as one whole turn (submission through
settlement of the reply promise).  Mirrors the source exactly: the
blank-input guard `if (!inputText.trim()) return;` (and nothing else)
gates entry — the isTyping flag is never consulted; the user message is
appended optimistically; the bot message of the try branch carries
`emotion: detectedEmotion`; the catch branch appends oopsText with no
emotion; `setIsTyping(false)` runs last on both paths. -/
def handleSendMessage (fb : FetchBehavior) (st : ChatState)
    (inputText detectedEmotion : String) : ChatState :=
  if trimS inputText = "" then st
  else
    let userMessage : Message := ⟨inputText, .user, none⟩
    let afterUser := st.messages ++ [userMessage]
    match getAIBotReply fb (getHistoryForAPI st.messages ++ [⟨"user", inputText⟩]) detectedEmotion with
    | .ok botReplyText =>
        ⟨afterUser ++ [⟨botReplyText, .bot, some detectedEmotion⟩], false⟩
    | .error _ =>
        ⟨afterUser ++ [⟨oopsText, .bot, none⟩], false⟩

/-- The send button disabled predicate `disabled={!inputText.trim()}`
(ChatInterface.tsx line 309).  It depends only on the input text. -/
def sendButtonDisabled (inputText : String) : Bool := trimS inputText == ""

/-! ## Detection cascade (WebcamFeed.tsx lines 103-137) -/

/-- The four values of the detectionMode state. -/
inductive DetectionMode
  | loading
  | faceapi
  | tensorflow
  | simulation
deriving DecidableEq, Repr

/-- Observable result of initializeDetection: the committed mode, the
setError message, the final isLoading flag, and which loaders were
awaited (in order) before committing. -/
structure InitResult where
  mode : DetectionMode
  errorMsg : Option String
  loadingFlag : Bool
  loadersTried : List DetectionMode
deriving DecidableEq, Repr

/-- initializeDetection (WebcamFeed.tsx lines 104-134): await
loadFaceAPI; on success commit faceapi and return.  Otherwise await
loadTensorFlow; on success commit tensorflow and return.  Otherwise
commit simulation unconditionally (no loader, cannot fail), with the
simulation notice error.  The parameters are the boolean outcomes of
the two loaders. -/
def initializeDetection (faceApiLoaded tensorflowLoaded : Bool) : InitResult :=
  if faceApiLoaded then
    ⟨.faceapi, none, false, [.faceapi]⟩
  else if tensorflowLoaded then
    ⟨.tensorflow, none, false, [.faceapi, .tensorflow]⟩
  else
    ⟨.simulation, some "Could not load ML libraries. Using simulation mode.", false,
      [.faceapi, .tensorflow]⟩

/-! ## Emotion label adapter (WebcamFeed.tsx lines 8-16, 140-179) -/

/-- The fixed lookup table `emotionMapping` (WebcamFeed.tsx lines 8-16). -/
def emotionMapping : List (String × String) :=
  [("angry", "angry"), ("disgusted", "disgusted"), ("fearful", "fearful"),
   ("happy", "happy"), ("neutral", "neutral"), ("sad", "sad"),
   ("surprised", "surprised")]

/-- `emotionMapping[maxExpression] || maxExpression` (line 154): a JS
object lookup whose miss (undefined) and whose falsy hit (empty string)
both fall back to the raw label. -/
def mapRawEmotion (raw : String) : String :=
  match emotionMapping.lookup raw with
  | some v => if v = "" then raw else v
  | none => raw

/-- `expressions[k]` as a rational score (absent keys score 0; face-api
expression maps always contain their keys). -/
def exprValue (exprs : List (String × ℚ)) (k : String) : ℚ :=
  ((exprs.lookup k).getD 0)

/-- The argmax `Object.keys(expressions).reduce((a, b) =>
expressions[a] > expressions[b] ? a : b)` (lines 150-152); `none` for
an empty map (JS reduce would throw, guarded by detections.length > 0). -/
def maxExpressionKey (exprs : List (String × ℚ)) : Option String :=
  match exprs.map Prod.fst with
  | [] => none
  | k :: ks =>
      some (ks.foldl (fun a b => if exprValue exprs a > exprValue exprs b then a else b) k)

/-- What detectEmotionsFaceAPI publishes (lines 154-159): the mapped
argmax label and its raw confidence. -/
def detectEmotionsFaceAPIPub (exprs : List (String × ℚ)) : Option (String × ℚ) :=
  match maxExpressionKey exprs with
  | none => none
  | some k => some (mapRawEmotion k, exprValue exprs k)

/-! ## Samplers (WebcamFeed.tsx lines 182-215) -/

/-- The label pool shared by detectEmotionsSimulation and
detectEmotionsTensorFlow (lines 184, 208). -/
def simulationEmotions : List String :=
  ["happy", "sad", "angry", "surprised", "neutral", "fearful"]

/-- detectEmotionsSimulation (lines 207-209):
`emotions[Math.floor(Math.random() * emotions.length)]`, with the
random draw `r` made explicit.  Out-of-range indices (impossible for
`r` in [0, 1)) default to the empty string. -/
def detectEmotionsSimulation (r : ℚ) : String :=
  simulationEmotions.getD (Int.toNat ⌊r * (simulationEmotions.length : ℚ)⌋) ""

/-- detectEmotionsSimulation confidence (line 210):
`Math.random() * 0.4 + 0.6`. -/
def simulationConfidence (r : ℚ) : ℚ := r * 0.4 + 0.6

/-- The weights of detectEmotionsTensorFlow (line 185). -/
def tfWeights : List ℚ := [0.3, 0.1, 0.1, 0.2, 0.2, 0.1]

/-- The emotion/weight pairs walked by the tensorflow sampler loop. -/
def tfPairs : List (String × ℚ) := simulationEmotions.zip tfWeights

/-- The cumulative selection loop of detectEmotionsTensorFlow (lines
188-198): accumulate weights and pick the first emotion whose running
cumulative reaches the draw; `neutral` if the loop exhausts. -/
def weightedPickAux : List (String × ℚ) → ℚ → ℚ → String
  | [], _, _ => "neutral"
  | (e, w) :: rest, random, cumulative =>
      let c := cumulative + w
      if random ≤ c then e else weightedPickAux rest random c

/-- detectEmotionsTensorFlow (lines 182-198) with the random draw made
explicit. -/
def detectEmotionsTensorFlow (r : ℚ) : String :=
  weightedPickAux tfPairs r 0

/-- detectEmotionsTensorFlow confidence (line 200):
`Math.random() * 0.3 + 0.7`. -/
def tfConfidence (r : ℚ) : ℚ := r * 0.3 + 0.7

/-! ## Concrete fetch behaviours used by witnesses and counterexamples -/

/-- A successful fetch whose content is a plain reply. -/
def fbOk : FetchBehavior :=
  ⟨.ok ⟨true, .ok "", .ok (some "Oh, how wonderful for you.")⟩⟩

/-- A non-2xx response (response.ok = false). -/
def fbHttpFail : FetchBehavior :=
  ⟨.ok ⟨false, .ok "Internal Server Error", .ok none⟩⟩

/-- A rejected fetch promise (network error). -/
def fbNetFail : FetchBehavior := ⟨.error "TypeError: Failed to fetch"⟩

/-- A 2xx response whose content is only a think block, so the reply
becomes empty after sanitization. -/
def fbThinkOnly : FetchBehavior :=
  ⟨.ok ⟨true, .ok "", .ok (some "<think>deliberating</think>")⟩⟩

/-! ## Helper lemmas -/

/-- dropWhile is idempotent. -/
theorem dropWhile_dropWhile_self (p : Char → Bool) (l : List Char) :
    (l.dropWhile p).dropWhile p = l.dropWhile p := by
  induction l with
  | nil => rfl
  | cons a t ih =>
      by_cases h : p a = true
      · simp [List.dropWhile_cons, h, ih]
      · simp [List.dropWhile_cons, h]

/-- The head surviving dropWhile fails the predicate. -/
theorem head?_dropWhile_false (p : Char → Bool) (l : List Char) :
    ∀ c, (l.dropWhile p).head? = some c → p c = false := by
  induction l with
  | nil => intro c h; simp at h
  | cons a t ih =>
      intro c h
      by_cases ha : p a = true
      · rw [List.dropWhile_cons, if_pos ha] at h
        exact ih c h
      · rw [List.dropWhile_cons, if_neg ha] at h
        simp at h
        rw [← h]
        simpa using ha

/-- A list whose head fails the predicate is untouched by dropWhile. -/
theorem dropWhile_eq_self_of_head? (p : Char → Bool) (l : List Char)
    (h : ∀ c, l.head? = some c → p c = false) : l.dropWhile p = l := by
  cases l with
  | nil => rfl
  | cons a t => simp [List.dropWhile_cons, h a rfl]

/-- The last element of a dropWhile result is the last element of the
original list. -/
theorem getLast?_dropWhile (p : Char → Bool) (l : List Char) (c : Char)
    (h : (l.dropWhile p).getLast? = some c) : l.getLast? = some c := by
  obtain ⟨t, ht⟩ := List.dropWhile_suffix (l := l) p
  rw [← ht, List.getLast?_append_of_ne_nil]
  · exact h
  · intro hn
    rw [hn] at h
    simp at h

/-- trimL is idempotent. -/
theorem trimL_idem (l : List Char) : trimL (trimL l) = trimL l := by
  unfold trimL
  have h1 :
      (((l.dropWhile Char.isWhitespace).reverse.dropWhile Char.isWhitespace).reverse).dropWhile
          Char.isWhitespace =
        ((l.dropWhile Char.isWhitespace).reverse.dropWhile Char.isWhitespace).reverse := by
    apply dropWhile_eq_self_of_head?
    intro c hc
    rw [List.head?_reverse] at hc
    have hc2 := getLast?_dropWhile Char.isWhitespace _ c hc
    rw [List.getLast?_reverse] at hc2
    exact head?_dropWhile_false Char.isWhitespace l c hc2
  rw [h1, List.reverse_reverse, dropWhile_dropWhile_self]

/-- A string with no case-insensitive open tag passes one regex pass
untouched. -/
theorem stripAux_of_no_open (fuel : Nat) (s : List Char)
    (h : findCI thinkOpenL s = none) : stripAux fuel s = s := by
  cases fuel with
  | zero => rfl
  | succ n => simp [stripAux, h]

/-- getAIBotReply always resolves: its catch converts every thrown
error into the fixed fallback string. -/
theorem getAIBotReply_resolves (fb : FetchBehavior) (hist : List HistMsg) (e : String) :
    ∃ s, getAIBotReply fb hist e = .ok s := by
  unfold getAIBotReply
  cases h : getAIBotReplyTry fb with
  | ok s => exact ⟨s, by simp [h]⟩
  | error e' => exact ⟨cantGetText, by simp [h]⟩

/-- On every failure outcome getAIBotReply resolves to one of the two
fixed fallback strings. -/
theorem getAIBotReply_failure (fb : FetchBehavior) (hist : List HistMsg) (e : String)
    (h : isReplyFailure fb = true) :
    getAIBotReply fb hist e = .ok apologyText ∨ getAIBotReply fb hist e = .ok cantGetText := by
  obtain ⟨fr⟩ := fb
  unfold isReplyFailure at h
  unfold getAIBotReply getAIBotReplyTry
  cases fr with
  | error e' => right; rfl
  | ok resp =>
      obtain ⟨rok, tr, jc⟩ := resp
      cases rok with
      | false =>
          cases tr with
          | error te => right; rfl
          | ok ts => left; rfl
      | true =>
          cases jc with
          | error je => right; rfl
          | ok jo =>
              cases jo with
              | none => right; rfl
              | some r =>
                  simp at h
                  right
                  simp [bind, Except.bind, h, pure, Except.pure]

/-- A bounded list index always selects a list member. -/
theorem simulationEmotions_getD_mem : ∀ n : ℕ, n < 6 →
    simulationEmotions.getD n "" ∈ simulationEmotions := by
  decide

/-- A successful assoc-list lookup returns one of the stored values. -/
theorem lookup_val_mem (l : List (String × String)) (raw v : String)
    (h : l.lookup raw = some v) : v ∈ l.map Prod.snd := by
  induction l with
  | nil => simp [List.lookup] at h
  | cons p t ih =>
      obtain ⟨k, b⟩ := p
      simp only [List.lookup] at h
      cases hk : raw == k with
      | true =>
          rw [hk] at h
          simp only [List.map_cons, List.mem_cons]
          simp at h
          exact Or.inl h.symm
      | false =>
          rw [hk] at h
          simp only [List.map_cons, List.mem_cons]
          exact Or.inr (ih h)

/-! ## Claim theorems -/

/-- C1: the cascade probes primary then secondary, commits to the first
loader that succeeds, commits to the simulator when both fail, never
probes the secondary when the primary succeeds, and always ends with
exactly one committed backend (never `loading`). -/
theorem initializeDetection_cascade_total :
    (∀ tf, (initializeDetection true tf).mode = .faceapi ∧
      (initializeDetection true tf).loadersTried = [.faceapi]) ∧
    (initializeDetection false true).mode = .tensorflow ∧
    (initializeDetection false false).mode = .simulation ∧
    (∀ p tf, (initializeDetection p tf).mode ≠ .loading ∧
      (initializeDetection p tf).loadingFlag = false) := by
  decide

/-- C3: the sanitizer removes every think span (case-insensitively,
across newlines, all occurrences in one left-to-right pass) and trims
whitespace; in particular the spec test vector sanitizes to
"Actual reply". -/
theorem sanitizeReply_spec_vectors :
    sanitizeReply "<think>anything\nmultiline</think>Actual reply" = "Actual reply" ∧
    sanitizeReply "A<THINK>x</THINK>B<think>y\nz</think>C" = "ABC" ∧
    sanitizeReply "  <think>a</think> hi  " = "hi" ∧
    sanitizeReply "no tags here" = "no tags here" := by
  decide

/-- C4 counterexample: the sanitizer is not idempotent.  Removing the
inner span of this input re-forms a think span out of the surrounding
fragments, so a second application removes more text. -/
theorem sanitizeReply_not_idempotent_cex :
    sanitizeReply "<th<think>x</think>ink>y</think>" = "<think>y</think>" ∧
    sanitizeReply (sanitizeReply "<th<think>x</think>ink>y</think>") = "" ∧
    sanitizeReply (sanitizeReply "<th<think>x</think>ink>y</think>") ≠
      sanitizeReply "<th<think>x</think>ink>y</think>" := by
  decide

/-- C4 amended: the sanitizer is idempotent on every input whose
single-pass output contains no residual case-insensitive open tag (in
particular on all outputs that are genuinely tag-free). -/
theorem sanitizeReply_idem_of_no_residual (s : String)
    (h : findCI thinkOpenL (sanitizeReply s).toList = none) :
    sanitizeReply (sanitizeReply s) = sanitizeReply s := by
  have hl : (sanitizeReply s).toList = trimL (stripThinkL s.toList) := rfl
  rw [hl] at h
  show String.mk (trimL (stripThinkL (sanitizeReply s).toList)) = sanitizeReply s
  rw [hl, stripThinkL, stripAux_of_no_open _ _ h, trimL_idem]
  rfl

/-- C4 witness: the amended idempotence theorem applied to a concrete
already-stripped input. -/
theorem sanitizeReply_idem_of_no_residual_w :
    sanitizeReply (sanitizeReply " <think>abc</think> ok ") =
      sanitizeReply " <think>abc</think> ok " :=
  sanitizeReply_idem_of_no_residual " <think>abc</think> ok " (by decide)

/-- C2 counterexample: on a non-2xx reply failure the single appended
fallback bot message carries the currently detected emotion as its
attached emotion, not no emotion: the failure path runs through the
try branch of handleSendMessage (getAIBotReply resolved normally), which
sets `emotion: detectedEmotion`. -/
theorem replyFailure_attaches_emotion_cex :
    handleSendMessage fbHttpFail chatInit "hi" "happy" =
      ⟨chatInit.messages ++ [⟨"hi", .user, none⟩, ⟨apologyText, .bot, some "happy"⟩], false⟩ ∧
    (some "happy" : Option String) ≠ none := by
  decide

/-- C2 amended: every reply failure appends exactly one bot message,
whose text is one of the two fixed fallback strings (apologyText for a
non-2xx status, cantGetText otherwise), carrying the currently detected
emotion as its attached emotion, and composing returns to false. -/
theorem replyFailure_single_fallback_message (fb : FetchBehavior) (st : ChatState)
    (input e : String) (h1 : ¬ trimS input = "") (h2 : isReplyFailure fb = true) :
    ∃ t, (t = apologyText ∨ t = cantGetText) ∧
      handleSendMessage fb st input e =
        ⟨st.messages ++ [⟨input, .user, none⟩, ⟨t, .bot, some e⟩], false⟩ := by
  rcases getAIBotReply_failure fb (getHistoryForAPI st.messages ++ [⟨"user", input⟩]) e h2 with
    h | h
  · exact ⟨apologyText, Or.inl rfl, by simp [handleSendMessage, h1, h]⟩
  · exact ⟨cantGetText, Or.inr rfl, by simp [handleSendMessage, h1, h]⟩

/-- C2 witness: the amended theorem applied to a concrete network
failure. -/
theorem replyFailure_single_fallback_message_w :
    ∃ t, (t = apologyText ∨ t = cantGetText) ∧
      handleSendMessage fbNetFail chatInit "hello" "sad" =
        ⟨chatInit.messages ++ [⟨"hello", .user, none⟩, ⟨t, .bot, some "sad"⟩], false⟩ :=
  replyFailure_single_fallback_message fbNetFail chatInit "hello" "sad" (by decide) (by decide)

/-- C5 counterexample: a reply that becomes empty only after
sanitization is returned as an empty string and appended as a valid
empty bot message, not treated as a failure: the emptiness check
`if (!reply)` runs before the replace/trim. -/
theorem emptyAfterSanitize_returned_cex :
    getAIBotReply fbThinkOnly [] "neutral" = .ok "" ∧
    handleSendMessage fbThinkOnly chatInit "hey" "sad" =
      ⟨chatInit.messages ++ [⟨"hey", .user, none⟩, ⟨"", .bot, some "sad"⟩], false⟩ := by
  refine ⟨?_, ?_⟩ <;> decide

/-- C5 amended: a content field that is absent or empty before
sanitization yields the fixed fallback string, but a non-empty content
is always returned sanitized, even when sanitization empties it. -/
theorem falsyContent_fallback (fb : FetchBehavior) (hist : List HistMsg) (e : String)
    (resp : HttpResponse) (hf : fb.fetchResult = .ok resp) (hok : resp.ok = true) :
    (resp.jsonContent = .ok none → getAIBotReply fb hist e = .ok cantGetText) ∧
    (resp.jsonContent = .ok (some "") → getAIBotReply fb hist e = .ok cantGetText) ∧
    (∀ r, resp.jsonContent = .ok (some r) → ¬ r = "" →
      getAIBotReply fb hist e = .ok (sanitizeReply r)) := by
  refine ⟨?_, ?_, ?_⟩
  · intro hc
    simp [getAIBotReply, getAIBotReplyTry, hf, hok, hc, bind, Except.bind, pure, Except.pure]
  · intro hc
    simp [getAIBotReply, getAIBotReplyTry, hf, hok, hc, bind, Except.bind, pure, Except.pure]
  · intro r hc hr
    simp [getAIBotReply, getAIBotReplyTry, hf, hok, hc, hr, bind, Except.bind, pure, Except.pure]

/-- C5 witness: the amended theorem applied to an absent content field
and to a think-only content. -/
theorem falsyContent_fallback_w :
    (getAIBotReply ⟨.ok ⟨true, .ok "", .ok none⟩⟩ [] "neutral" = .ok cantGetText) ∧
    (getAIBotReply fbThinkOnly [] "neutral" =
      .ok (sanitizeReply "<think>deliberating</think>")) :=
  ⟨(falsyContent_fallback ⟨.ok ⟨true, .ok "", .ok none⟩⟩ [] "neutral" ⟨true, .ok "", .ok none⟩
      rfl rfl).1 rfl,
   (falsyContent_fallback fbThinkOnly [] "neutral" ⟨true, .ok "", .ok (some "<think>deliberating</think>")⟩
      rfl rfl).2.2 "<think>deliberating</think>" rfl (by decide)⟩

/-- C7 counterexample: submitting a non-blank message while composing
(isTyping = true) is processed, not rejected or deferred — the message
history changes — and the send button is enabled for any non-blank
input regardless of the composing flag. -/
theorem submitWhileComposing_processed_cex :
    (handleSendMessage fbOk ⟨[greetMsg], true⟩ "Second message" "happy").messages ≠ [greetMsg] ∧
    sendButtonDisabled "Second message" = false := by
  refine ⟨?_, ?_⟩ <;> decide

/-- C7 amended: the only gate on submission is the blank-input guard:
a blank input leaves the state untouched; for non-blank input the
result never depends on the composing flag and the turn is processed
(two messages are appended). -/
theorem submitGatedOnlyByBlankInput (fb : FetchBehavior) (msgs : List Message)
    (t1 t2 : Bool) (input e : String) :
    (trimS input = "" → handleSendMessage fb ⟨msgs, t1⟩ input e = ⟨msgs, t1⟩) ∧
    (¬ trimS input = "" →
      handleSendMessage fb ⟨msgs, t1⟩ input e = handleSendMessage fb ⟨msgs, t2⟩ input e) ∧
    (¬ trimS input = "" →
      (handleSendMessage fb ⟨msgs, t1⟩ input e).messages.length = msgs.length + 2) := by
  refine ⟨?_, ?_, ?_⟩
  · intro h
    simp [handleSendMessage, h]
  · intro h
    simp only [handleSendMessage, if_neg h]
  · intro h
    cases hr : getAIBotReply fb (getHistoryForAPI msgs ++ [⟨"user", input⟩]) e with
    | ok t => simp [handleSendMessage, h, hr]
    | error e' => simp [handleSendMessage, h, hr]

/-- C7 witness: the amended theorem applied to a concrete state that is
composing. -/
theorem submitGatedOnlyByBlankInput_w :
    (handleSendMessage fbOk ⟨[greetMsg], true⟩ "hi" "sad" =
      handleSendMessage fbOk ⟨[greetMsg], false⟩ "hi" "sad") ∧
    handleSendMessage fbOk ⟨[greetMsg], true⟩ "   " "sad" = ⟨[greetMsg], true⟩ :=
  ⟨(submitGatedOnlyByBlankInput fbOk [greetMsg] true false "hi" "sad").2.1 (by decide),
   (submitGatedOnlyByBlankInput fbOk [greetMsg] true false "   " "sad").1 (by decide)⟩

/-- C10: getAIBotReply never rejects — every outcome resolves to some
string — and consequently the catch branch of handleSendMessage is
unreachable for reply-engine failures: for every fetch behaviour the
appended bot message comes from the try branch and carries the detected
emotion. -/
theorem getAIBotReply_total_resolves (fb : FetchBehavior) (hist : List HistMsg) (e : String) :
    (∃ s, getAIBotReply fb hist e = .ok s) ∧
    (∀ (st : ChatState) (input em : String), ¬ trimS input = "" →
      ∃ t, handleSendMessage fb st input em =
        ⟨st.messages ++ [⟨input, .user, none⟩, ⟨t, .bot, some em⟩], false⟩) := by
  refine ⟨getAIBotReply_resolves fb hist e, ?_⟩
  intro st input em h
  obtain ⟨t, ht⟩ :=
    getAIBotReply_resolves fb (getHistoryForAPI st.messages ++ [⟨"user", input⟩]) em
  exact ⟨t, by simp [handleSendMessage, h, ht]⟩

/-- C10 witness: the theorem applied to a concrete rejected fetch: the
turn still appends a try-branch bot message with the emotion attached. -/
theorem getAIBotReply_total_resolves_w :
    ∃ t, handleSendMessage fbNetFail chatInit "hi" "sad" =
      ⟨chatInit.messages ++ [⟨"hi", .user, none⟩, ⟨t, .bot, some "sad"⟩], false⟩ :=
  (getAIBotReply_total_resolves fbNetFail [] "sad").2 chatInit "hi" "sad" (by decide)

/-- C6 counterexample: the label "disgusted" is absent from the pool
both samplers draw from, so it has zero probability of being produced —
"every EmotionLabel has non-zero probability" fails (and the simulation
pool assigns every listed label the same 1/6-wide preimage, so the
output is uniform, not skewed: see the uniformity conjunct of the
amended theorem). -/
theorem simulation_missing_disgusted_cex :
    "disgusted" ∉ simulationEmotions ∧ simulationEmotions.length = 6 := by
  decide

/-- C6 amended: the simulation sampler draws uniformly from six labels
(each label owns exactly the preimage [i/6, (i+1)/6), and "disgusted" is
never produced) with confidence uniform on [0.6, 1); the skewed weighted
distribution (happy 0.3, surprised 0.2, neutral 0.2, others 0.1) with
confidence on [0.7, 1) belongs to the tensorflow fallback sampler. -/
theorem simulationUniform_tfWeighted :
    (∀ r : ℚ, 0 ≤ r → r < 1 → detectEmotionsSimulation r ∈ simulationEmotions) ∧
    (∀ (i : Fin 6) (r : ℚ), ((i : ℕ) : ℚ) / 6 ≤ r → r < (((i : ℕ) : ℚ) + 1) / 6 →
      detectEmotionsSimulation r = simulationEmotions.getD (i : ℕ) "") ∧
    "disgusted" ∉ simulationEmotions ∧
    (∀ r : ℚ, 0 ≤ r → r < 1 →
      (0.6 : ℚ) ≤ simulationConfidence r ∧ simulationConfidence r < 1) ∧
    (∀ r : ℚ, (r ≤ 0.3 → detectEmotionsTensorFlow r = "happy") ∧
      (0.7 < r → r ≤ 0.9 → detectEmotionsTensorFlow r = "neutral") ∧
      (0.9 < r → r ≤ 1 → detectEmotionsTensorFlow r = "fearful")) ∧
    (∀ r : ℚ, 0 ≤ r → r < 1 → (0.7 : ℚ) ≤ tfConfidence r ∧ tfConfidence r < 1) := by
  have hlen : ((simulationEmotions.length : ℚ)) = 6 := by norm_num [simulationEmotions]
  refine ⟨?_, ?_, by decide, ?_, ?_, ?_⟩
  · intro r h0 h1
    unfold detectEmotionsSimulation
    rw [hlen]
    have hf6 : ⌊r * 6⌋ < 6 := by
      rw [Int.floor_lt]
      push_cast
      linarith
    exact simulationEmotions_getD_mem _ (by omega)
  · intro i r hl hr
    unfold detectEmotionsSimulation
    rw [hlen]
    have hfl : ⌊r * 6⌋ = ((i : ℕ) : ℤ) := by
      rw [Int.floor_eq_iff]
      push_cast
      constructor
      · linarith
      · linarith
    rw [hfl, Int.toNat_natCast]
  · intro r h0 h1
    unfold simulationConfidence
    constructor <;> nlinarith
  · intro r
    refine ⟨fun h1 => ?_, fun h1 h2 => ?_, fun h1 h2 => ?_⟩ <;>
      · simp only [detectEmotionsTensorFlow, tfPairs, simulationEmotions, tfWeights,
          List.zip, List.zipWith, weightedPickAux]
        split_ifs <;> first | rfl | (exfalso; linarith)
  · intro r h0 h1
    unfold tfConfidence
    constructor <;> nlinarith

/-- C6 witness: the amended theorem applied at concrete draws. -/
theorem simulationUniform_tfWeighted_w :
    detectEmotionsSimulation 0 = simulationEmotions.getD 0 "" ∧
    detectEmotionsTensorFlow 0.25 = "happy" ∧
    ((0.7 : ℚ) ≤ tfConfidence (1/2) ∧ tfConfidence (1/2) < 1) :=
  ⟨by
    have h := simulationUniform_tfWeighted.2.1 (0 : Fin 6) 0 (by norm_num) (by norm_num)
    simpa using h,
   (simulationUniform_tfWeighted.2.2.2.2.1 0.25).1 (by norm_num),
   simulationUniform_tfWeighted.2.2.2.2.2 (1/2) (by norm_num) (by norm_num)⟩

/-- C8: the outbound payload always starts with the fixed instruction
template parameterized by the current emotion, followed by the full
conversation history with roles translated (bot to assistant, user to
user), ending with the just-submitted user message; and the payload
never depends on emotions attached to prior turns (two histories equal
up to sender and text produce the same payload). -/
theorem sendPayload_structure (msgs : List Message) (inputText e : String) :
    sendPayload msgs inputText e =
      ⟨"system", systemPrompt e⟩ ::
        (msgs.map (fun m =>
          (⟨if m.sender = Sender.bot then "assistant" else "user", m.text⟩ : ApiMsg)) ++
          [⟨"user", inputText⟩]) ∧
    (∀ msgs2 : List Message,
      msgs.map (fun m => (m.sender, m.text)) = msgs2.map (fun m => (m.sender, m.text)) →
      sendPayload msgs inputText e = sendPayload msgs2 inputText e) := by
  constructor
  · unfold sendPayload requestMessages getHistoryForAPI
    simp only [List.map_append, List.map_map, List.map_cons, List.map_nil, List.cons.injEq,
      Function.comp]
    refine ⟨trivial, ?_⟩
    congr 1
    apply List.map_congr_left
    intro m _
    cases hm : m.sender <;> simp [senderRole, hm]
  · intro msgs2 hmap
    unfold sendPayload
    have hh : getHistoryForAPI msgs = getHistoryForAPI msgs2 := by
      unfold getHistoryForAPI
      have h1 : ∀ ms : List Message,
          ms.map (fun m => (⟨senderRole m.sender, m.text⟩ : HistMsg)) =
            (ms.map (fun m => (m.sender, m.text))).map
              (fun pr => (⟨senderRole pr.1, pr.2⟩ : HistMsg)) := by
        intro ms
        rw [List.map_map]
        rfl
      rw [h1, h1, hmap]
    rw [hh]

/-- C8 witness: the structure theorem applied to two concrete histories
that differ only in attached emotions. -/
theorem sendPayload_structure_w :
    sendPayload [⟨"hello", .user, some "happy"⟩] "again" "sad" =
      sendPayload [⟨"hello", .user, none⟩] "again" "sad" :=
  (sendPayload_structure [⟨"hello", .user, some "happy"⟩] "again" "sad").2
    [⟨"hello", .user, none⟩] (by decide)

/-- C9: every raw label present in the fixed lookup table is mapped to
its table value, every raw label absent from the table passes through
unchanged, and detectEmotionsFaceAPI publishes the mapped argmax label
in both cases. -/
theorem emotionMapping_passthrough :
    (∀ raw v, emotionMapping.lookup raw = some v → mapRawEmotion raw = v) ∧
    (∀ raw, emotionMapping.lookup raw = none → mapRawEmotion raw = raw) ∧
    (∀ exprs k, maxExpressionKey exprs = some k →
      detectEmotionsFaceAPIPub exprs = some (mapRawEmotion k, exprValue exprs k)) := by
  refine ⟨?_, ?_, ?_⟩
  · intro raw v h
    have hv := lookup_val_mem _ _ _ h
    have hv' : ¬ v = "" := by
      simp [emotionMapping] at hv
      rcases hv with rfl | rfl | rfl | rfl | rfl | rfl | rfl <;> decide
    simp [mapRawEmotion, h, hv']
  · intro raw h
    simp [mapRawEmotion, h]
  · intro exprs k h
    simp [detectEmotionsFaceAPIPub, h]

/-- C9 witness: the adapter theorem applied to a concrete unmapped
label, a concrete mapped label, and a concrete published sample. -/
theorem emotionMapping_passthrough_w :
    mapRawEmotion "mysterylabel" = "mysterylabel" ∧
    mapRawEmotion "happy" = "happy" ∧
    detectEmotionsFaceAPIPub [("mysterylabel", 1)] =
      some (mapRawEmotion "mysterylabel", exprValue [("mysterylabel", 1)] "mysterylabel") :=
  ⟨emotionMapping_passthrough.2.1 "mysterylabel" (by decide),
   emotionMapping_passthrough.1 "happy" "happy" (by decide),
   emotionMapping_passthrough.2.2 [("mysterylabel", 1)] "mysterylabel" (by decide)⟩

end MoodSpoiler
